import Mathlib

/-!
Verification development for the state-based lighthouse disambiguator
(`src/disambiguator_statebased.c`).  The definitions below are a shallow
embedding of the C code: machine integers are modelled as `Nat`/`Int` with
explicit reductions modulo `2^32` at the places where 32-bit wraparound can
occur in the C program.  Logging (`SV_INFO`/`SV_WARN`/`DEBUG_TB`) has no
effect on program state and is not modelled; `assert` sites are noted in
comments.
-/

set_option maxRecDepth 100000
set_option maxHeartbeats 4000000

namespace Disambiguator

/-- One light capture event (C struct `LightcapElement`).  `sensor_id` is an
`Int` because the code synthesises aggregate elements with
`sensor_id = -count`; real input events have `0 ≤ sensor_id`. -/
structure LightcapElement where
  sensor_id : Int
  length    : Nat
  timestamp : Nat
  deriving DecidableEq, Repr

/-- The zero-initialised `LightcapElement` (what `calloc`/`memset 0` yields). -/
def zeroLE : LightcapElement := ⟨0, 0, 0⟩

/-- Parameters of one lighthouse schedule phase (C struct
`LighthouseStateParameters`). -/
structure LighthouseStateParameters where
  acode : Nat
  lh : Int
  axis : Int
  window : Nat
  is_sweep : Bool
  deriving DecidableEq, Repr

/-- `PULSE_WINDOW` from the C source. -/
def PULSE_WINDOW : Nat := 20000

/-- `CAPTURE_WINDOW` from the C source. -/
def CAPTURE_WINDOW : Nat := 360000

/-- `LS_END` from the C `enum LighthouseState`. -/
def LS_END : Nat := 13

/-- The constant table `LS_Params` from the C source (index 0 and index 13 are
the sentinel rows; the C designated initialisers leave `acode = 0` there). -/
def LS_Params : Nat → LighthouseStateParameters
  | 1 => ⟨4, 1, 0, PULSE_WINDOW, false⟩
  | 2 => ⟨0, 0, 0, PULSE_WINDOW, false⟩
  | 3 => ⟨4, 0, 0, CAPTURE_WINDOW, true⟩
  | 4 => ⟨5, 1, 1, PULSE_WINDOW, false⟩
  | 5 => ⟨1, 0, 1, PULSE_WINDOW, false⟩
  | 6 => ⟨1, 0, 1, CAPTURE_WINDOW, true⟩
  | 7 => ⟨0, 1, 0, PULSE_WINDOW, false⟩
  | 8 => ⟨4, 0, 0, PULSE_WINDOW, false⟩
  | 9 => ⟨4, 1, 0, CAPTURE_WINDOW, true⟩
  | 10 => ⟨1, 1, 1, PULSE_WINDOW, false⟩
  | 11 => ⟨5, 0, 1, PULSE_WINDOW, false⟩
  | 12 => ⟨5, 1, 1, CAPTURE_WINDOW, true⟩
  | _ => ⟨0, -1, -1, 0, false⟩

/-- `LSParam_acode` from the C source. -/
def LSParam_acode (s : Nat) : Nat := (LS_Params s).acode

/-- `LSParam_offset_for_state`: cumulative start offset of phase `s`
(the C code memoises the running sum of the windows). -/
def LSParam_offset_for_state : Nat → Nat
  | 0 => 0
  | n + 1 => LSParam_offset_for_state n + (LS_Params n).window

/-- `ACODE_TIMING` macro: expected sync-pulse length for an acode. -/
def ACODE_TIMING (acode : Nat) : Nat :=
  3000 + (acode &&& 1) * 500 + ((acode >>> 1) &&& 1) * 1000 + ((acode >>> 2) &&& 1) * 2000 - 250

/-- `DATA_BIT` from the C source. -/
def DATA_BIT : Nat := 2

/-- The loop body of `LighthouseState_findByOffset`: scan `i = 2 .. LS_END`
for the first cumulative offset strictly above `offset`; the fuel argument
bounds the iteration count exactly as the C `for` loop does (12 iterations).
If the loop runs off the end the C code hits `assert(false)`; we return the
out-of-range marker `(14, 0)` there (unreachable for offsets inside the
cycle). -/
def findByOffsetFrom (offset : Int) : Nat → Nat → Nat × Int
  | _, 0 => (14, 0)
  | i, fuel + 1 =>
    if (LSParam_offset_for_state i : Int) > offset then
      let offset_from_last : Int := LSParam_offset_for_state (i - 1)
      let offset_from_this : Int := LSParam_offset_for_state i
      let dist_from_last := offset - offset_from_last
      let dist_from_this := offset_from_this - offset
      let this_is_closest :=
        if (LS_Params (i - 1)).is_sweep ∧ dist_from_this > 1000 then false
        else dist_from_last > dist_from_this
      if this_is_closest then (i, dist_from_this) else (i - 1, dist_from_last)
    else
      findByOffsetFrom offset (i + 1) fuel

/-- `LighthouseState_findByOffset` from the C source: returns the phase and
the distance to its cumulative start offset. -/
def LighthouseState_findByOffset (offset : Int) : Nat × Int :=
  findByOffsetFrom offset 2 12

/-- `find_acode` from the C source: piecewise-constant bucketing of a pulse
length to an acode, `-1` outside the valid band. -/
def find_acode (pulseLen : Nat) : Int :=
  if pulseLen < 2550 then -1
  else if pulseLen < 3050 then 0
  else if pulseLen < 3550 then 1
  else if pulseLen < 4050 then 2
  else if pulseLen < 4550 then 3
  else if pulseLen < 5050 then 4
  else if pulseLen < 5550 then 5
  else if pulseLen < 6050 then 6
  else if pulseLen < 6550 then 7
  else -1

/-- The C expression `find_acode(len) & 0x5`: bitwise AND on a (possibly
negative, two's complement) `int`.  Bits 0-2 of `r` are `r mod 8`, so the
result is `(r mod 8) &&& 5`; for `r = -1` this gives `5`. -/
def acodeAnd5 (r : Int) : Nat := ((r.emod 8).toNat) &&& 5

/-- `calculate_error` from the C source: the smaller of the timing errors
against the target acode with and without the data bit. -/
def calculate_error (target_acode : Nat) (le : LightcapElement) : Nat :=
  let time_error_d0 := ((ACODE_TIMING target_acode : Int) - le.length).natAbs
  let time_error_d1 := ((ACODE_TIMING (target_acode ||| DATA_BIT) : Int) - le.length).natAbs
  if time_error_d0 > time_error_d1 then time_error_d1 else time_error_d0

/-- 32-bit unsigned subtraction `a - b` (both operands below `2^32`). -/
def u32sub (a b : Nat) : Nat := (a + 4294967296 - b) % 4294967296

/-- `apply_mod_offset` from the C source.  All three branches of the C code
are reproduced: plain subtraction when `timestamp > mod_offset`; the rollover
branch using the C literal `0xFFFFFFFF` when the anchor predates a 32-bit
rollover; and otherwise reduction of both operands followed by a signed
truncated remainder (C `%` on `int32_t`) with a final shift into
`[0, mod_group)`. -/
def apply_mod_offset (timestamp mod_offset : Nat) (end_state : Nat) : Nat :=
  let mod_group := LSParam_offset_for_state end_state
  if timestamp > mod_offset then (timestamp - mod_offset) % mod_group
  else if mod_offset - timestamp > 4294967295 / 2 then
    (4294967295 - mod_offset + timestamp) % mod_group
  else
    let t := timestamp % mod_group
    let m := mod_offset % mod_group
    let rtn : Int := ((t : Int) - (m : Int)).tmod (mod_group : Int)
    (if rtn < 0 then rtn + mod_group else rtn).toNat

/-- `overlaps` from the C source.  The sums `length + timestamp` are 32-bit
additions, hence the reductions modulo `2^32`; the comparison threshold is
always half of the length of the FIRST argument `a`. -/
def overlaps (a b : LightcapElement) : Bool :=
  let overlap : Nat :=
    if a.timestamp < b.timestamp ∧ (a.length + a.timestamp) % 4294967296 > b.timestamp then
      (a.length + a.timestamp) % 4294967296 - b.timestamp
    else if b.timestamp < a.timestamp ∧ (b.length + b.timestamp) % 4294967296 > a.timestamp then
      (b.length + b.timestamp) % 4294967296 - a.timestamp
    else 0
  overlap > a.length / 2

/-- `naive_classify` from the C source, as a boolean: `true` means `LCC_SYNC`
(length inside the `2250 .. 6750` sync band), `false` means `LCC_SWEEP`. -/
def naive_classify (le : LightcapElement) : Bool :=
  ¬ (le.length < 2250 ∨ le.length > 6750)

/-- `SYNC_HISTORY_LEN` from the C source. -/
def SYNC_HISTORY_LEN : Nat := 12

/-- Per-tracked-object state (C struct `Disambiguator_data_t`).  The two
entries of `mod_offset[NUM_LIGHTHOUSES]` are the fields `mod_offset0` and
`mod_offset1`; `sweep_data` is the flexible array tail, sized to the
object's sensor count. -/
structure Disambiguator_data_t where
  last_timestamp : Nat
  last_sync_timestamp : Nat
  last_sync_length : Nat
  last_sync_count : Nat
  first_sync_timestamp : Nat
  longest_sync_length : Nat
  state : Nat
  mod_offset0 : Nat
  mod_offset1 : Nat
  confidence : Int
  stabalize : Nat
  failures : Nat
  lastWasSync : Bool
  sync_history : List LightcapElement
  sync_offset : Nat
  sweep_data : List LightcapElement
  deriving DecidableEq, Repr

/-- The zero state produced by `calloc` for an object with `ct` sensors. -/
def initData (ct : Nat) : Disambiguator_data_t :=
  ⟨0, 0, 0, 0, 0, 0, 0, 0, 0, 0, 0, 0, false,
   List.replicate SYNC_HISTORY_LEN zeroLE, 0, List.replicate ct zeroLE⟩

/-- Read `d->mod_offset[lh]`. -/
def modOff (d : Disambiguator_data_t) (lh : Int) : Nat :=
  if lh = 0 then d.mod_offset0 else d.mod_offset1

/-- Write `d->mod_offset[lh]`. -/
def setModOff (d : Disambiguator_data_t) (lh : Int) (v : Nat) : Disambiguator_data_t :=
  if lh = 0 then { d with mod_offset0 := v } else { d with mod_offset1 := v }

/-- One record passed to the `lightproc` output callback. -/
structure LightprocCall where
  sensor_id : Int
  acode : Int
  offset_from : Int
  timestamp : Nat
  length : Nat
  lh : Int
  deriving DecidableEq, Repr

/-- `get_last_sync` from the C source: the synthesised aggregate sync pulse. -/
def get_last_sync (d : Disambiguator_data_t) : LightcapElement :=
  if d.last_sync_count = 0 then zeroLE
  else ⟨-(d.last_sync_count : Int), d.longest_sync_length, d.first_sync_timestamp⟩

/-- `SolveForMod_Offset` from the C source: `le->timestamp -
LSParam_offset_for_state(state)` in 32-bit unsigned arithmetic.  (The C code
asserts the state is not a sweep; all call sites satisfy that.) -/
def SolveForMod_Offset (state : Nat) (le : LightcapElement) : Nat :=
  u32sub le.timestamp (LSParam_offset_for_state state)

/-- `AddSyncHistory` from the C source: push a nonzero-length sync into the
12-slot ring buffer. -/
def AddSyncHistory (d : Disambiguator_data_t) (sync : LightcapElement) : Disambiguator_data_t :=
  if sync.length ≠ 0 then
    let d := { d with sync_history := d.sync_history.set d.sync_offset sync,
                      sync_offset := d.sync_offset + 1 }
    if d.sync_offset ≥ SYNC_HISTORY_LEN then { d with sync_offset := 0 } else d
  else d

/-- `RegisterSync` from the C source. -/
def RegisterSync (d : Disambiguator_data_t) (le : LightcapElement) : Disambiguator_data_t :=
  let d :=
    if le.timestamp < d.first_sync_timestamp ∨ d.longest_sync_length = 0 then
      { d with first_sync_timestamp := le.timestamp } else d
  let d :=
    if le.length > d.longest_sync_length then
      { d with longest_sync_length := le.length } else d
  { d with last_sync_timestamp := d.last_sync_timestamp + le.timestamp,
           last_sync_length := d.last_sync_length + le.length,
           last_sync_count := d.last_sync_count + 1 }

/-- `ResetSync` from the C source. -/
def ResetSync (d : Disambiguator_data_t) : Disambiguator_data_t :=
  { d with first_sync_timestamp := 0, longest_sync_length := 0,
           last_sync_timestamp := 0, last_sync_length := 0, last_sync_count := 0 }

/-- The inlier test applied to one history entry inside `find_inliers`. -/
def isInlier (le : LightcapElement) (guess_mod : Nat) (test60hz : Bool) : Bool :=
  let end_of_mod := if test60hz then 7 else LS_END
  let le_offset := apply_mod_offset le.timestamp guess_mod end_of_mod
  let fr := LighthouseState_findByOffset (le_offset : Int)
  let this_state := fr.1
  let offset_error := fr.2
  if (LS_Params this_state).is_sweep then false
  else if (LS_Params this_state).lh ≠ 0 ∧ test60hz then false
  else decide (calculate_error (LSParam_acode this_state) le < 500 ∧ offset_error < 500)

/-- `find_inliers` from the C source: the loop walks the history until the
first zero-length slot and counts entries passing the inlier test. -/
def find_inliers (d : Disambiguator_data_t) (guess_mod : Nat) (test60hz : Bool) : Nat :=
  ((d.sync_history.takeWhile (fun le => le.length > 0)).filter
    (fun le => isInlier le guess_mod test60hz)).length

/-- `find_relative_offset` from the C source.  `othersBest` models
`get_best_latest_state(g) != NULL` over the other tracked objects (the
object being processed has `state == UNKNOWN` here, so it never contributes);
`flag` is `g->single_60hz_mode`.  Returns `some (guess, guess_mod, is60hz)`
on success. -/
def find_relative_offset (othersBest : Bool) (flag : Bool)
    (d : Disambiguator_data_t) : Option (Nat × Nat × Bool) :=
  let ri := (d.sync_offset + (SYNC_HISTORY_LEN - 1)) % SYNC_HISTORY_LEN
  let re := d.sync_history.getD ri zeroLE
  let acode := acodeAnd5 (find_acode re.length)
  (List.range' 1 12).findSome? (fun guess =>
    if LSParam_acode guess = acode ∧ (LS_Params guess).is_sweep = false then
      let guess_mod := SolveForMod_Offset guess re
      (List.range (if guess ≥ 7 then 1 else 2)).findSome? (fun t =>
        let test60hz : Bool := t = 1
        if othersBest = true ∧ test60hz ≠ flag then none
        else if find_inliers d guess_mod test60hz > SYNC_HISTORY_LEN - 1 then
          some (guess, guess_mod, test60hz)
        else none)
    else none)

/-- `EndSync` from the C source.  Returns the updated object state, the
updated `single_60hz_mode` flag and the found state (`0` = `LS_UNKNOWN`).
On success the C code sets both mod offsets and assigns the global flag. -/
def EndSync (othersBest : Bool) (flag : Bool) (d : Disambiguator_data_t) :
    Disambiguator_data_t × Bool × Nat :=
  let lastSync := get_last_sync d
  let d := AddSyncHistory d lastSync
  match find_relative_offset othersBest flag d with
  | some (g, m, is60hz) =>
      ({ d with mod_offset0 := m, mod_offset1 := m }, is60hz, g)
  | none => (d, flag, 0)

/-- `AttemptFindState` from the C source (the commented-out state-stealing
block is dead code).  `EndSweep` always returns `LS_UNKNOWN` and performs no
mutation. -/
def AttemptFindState (othersBest : Bool) (flag : Bool)
    (d : Disambiguator_data_t) (le : LightcapElement) :
    Disambiguator_data_t × Bool × Nat :=
  if naive_classify le then
    let lastSync := get_last_sync d
    if d.lastWasSync = false ∨ overlaps lastSync le = false then
      let r := if d.lastWasSync then EndSync othersBest flag d else (d, flag, 0)
      let d := r.1
      let flag := r.2.1
      let new_state := r.2.2
      if new_state ≠ 0 then (d, flag, new_state)
      else
        let d := ResetSync d
        let d := RegisterSync d le
        ({ d with lastWasSync := true }, flag, 0)
    else
      let d := RegisterSync d le
      ({ d with lastWasSync := true }, flag, 0)
  else
    if d.lastWasSync then
      let r := EndSync othersBest flag d
      if r.2.2 ≠ 0 then (r.1, r.2.1, r.2.2)
      else ({ r.1 with lastWasSync := false }, r.2.1, 0)
    else ({ d with lastWasSync := false }, flag, 0)

/-- `SetState` from the C source.  A proposed state at or above `LS_END` is
remapped to phase 1; entering `LS_UNKNOWN` clears the sync history, and when
additionally no object is locked with positive confidence
(`get_best_latest_state(g) == 0`, modelled over the other objects by
`othersBest` since the object itself has just been set to `UNKNOWN`), the
global 60 Hz flag is cleared.  Both sync aggregates and the sweep buffer are
always reset.  (The `le` parameter of the C function is unused.) -/
def SetState (othersBest : Bool) (flag : Bool) (sensor_ct : Nat)
    (d : Disambiguator_data_t) (new_state0 : Nat) : Disambiguator_data_t × Bool :=
  let new_state := if new_state0 ≥ LS_END then 1 else new_state0
  let d := { d with state := new_state }
  let d :=
    if new_state = 0 then
      { d with sync_history := List.replicate SYNC_HISTORY_LEN zeroLE, sync_offset := 0 }
    else d
  let flag := if new_state = 0 ∧ othersBest = false then false else flag
  let d := ResetSync d
  ({ d with sweep_data := List.replicate sensor_ct zeroLE }, flag)

/-- `RunACodeCapture` from the C source (the confidence penalty is the
constant 3). -/
def RunACodeCapture (othersBest : Bool) (flag : Bool) (sensor_ct : Nat)
    (target_acode : Nat) (d : Disambiguator_data_t) (le : LightcapElement) :
    Disambiguator_data_t × Bool :=
  if le.length < 400 then (d, flag)
  else
    let error := calculate_error target_acode le
    if error > 1250 then
      let r := if d.confidence < 3 then SetState othersBest flag sensor_ct d 0 else (d, flag)
      ({ r.1 with confidence := r.1.confidence - 3 }, r.2)
    else
      let d := if d.confidence < 100 then { d with confidence := d.confidence + 1 } else d
      (RegisterSync d le, flag)

/-- `ProcessStateChange` from the C source.  Returns the new object state,
the new flag and the `lightproc` records emitted while leaving the old
phase.  The drift computation feeding the `SV_WARN` is log-only and elided;
the `assert(offset_from > 0)` site is noted in the sweep branch.  (The C
function receives the triggering element but only forwards it to `SetState`,
which ignores it.) -/
def ProcessStateChange (othersBest : Bool) (flag : Bool) (sensor_ct : Nat)
    (d : Disambiguator_data_t) (_le : LightcapElement) (new_state : Nat) :
    Disambiguator_data_t × Bool × List LightprocCall :=
  let end_of_mod := if flag then 7 else LS_END
  if (LS_Params d.state).is_sweep = false then
    -- Leaving a sync ...
    if d.last_sync_count > 0 then
      let lastSync : LightcapElement :=
        ⟨-(d.last_sync_count : Int), d.longest_sync_length, d.first_sync_timestamp⟩
      let d := AddSyncHistory d lastSync
      let new_offset := SolveForMod_Offset d.state lastSync
      let d := setModOff d (LS_Params d.state).lh new_offset
      let lengthData := ACODE_TIMING (LSParam_acode d.state ||| DATA_BIT)
      let lengthNoData := ACODE_TIMING (LSParam_acode d.state)
      let hasData :=
        ((lengthData : Int) - lastSync.length).natAbs <
          ((lengthNoData : Int) - lastSync.length).natAbs
      let acode := if hasData then LSParam_acode d.state ||| DATA_BIT else LSParam_acode d.state
      let next_state := d.state + 1
      let next_state := if next_state = LS_END ∨ (flag ∧ next_state = 7) then 0 else next_state
      let index_code : Int := if (LS_Params next_state).is_sweep then -1 else -2
      let out :=
        if d.confidence > 80 then
          [⟨index_code, acode, 0, lastSync.timestamp, lastSync.length, (LS_Params d.state).lh⟩]
        else ([] : List LightprocCall)
      let r := SetState othersBest flag sensor_ct d new_state
      (r.1, r.2, out)
    else
      let r := SetState othersBest flag sensor_ct d new_state
      (r.1, r.2, [])
  else
    -- Leaving a sweep ...
    let nonEmpty := d.sweep_data.filter (fun le => le.length > 0)
    let cnt := nonEmpty.length
    let avg_length : Nat := nonEmpty.foldl (fun acc le => acc + le.length) 0
    let out : List LightprocCall :=
      if cnt > 0 then
        let minl : Nat := 10
        let maxl : Nat := 3 * ((avg_length + cnt / 2) / cnt)
        let lh := (LS_Params d.state).lh
        (d.sweep_data.enum.filterMap (fun p => show Option LightprocCall from
          let i := p.1
          let sle := p.2
          if decide (sle.length > 0) && decide (sle.length ≥ minl) && decide (sle.length ≤ maxl) then
            let le_offset :=
              apply_mod_offset ((sle.timestamp + sle.length / 2) % 4294967296)
                (modOff d lh) end_of_mod
            let offset_from : Int :=
              (le_offset : Int) - (LSParam_offset_for_state d.state : Int) + 20000
            -- C asserts offset_from > 0 here.
            if d.confidence > 80 then
              some ⟨(i : Int), (LSParam_acode d.state : Int), offset_from,
                    sle.timestamp, sle.length, lh⟩
            else none
          else none))
      else []
    let r := SetState othersBest flag sensor_ct d new_state
    (r.1, r.2, out)

/-- `PropagateState` from the C source. -/
def PropagateState (othersBest : Bool) (flag : Bool) (sensor_ct : Nat)
    (d : Disambiguator_data_t) (le : LightcapElement) :
    Disambiguator_data_t × Bool × List LightprocCall :=
  if le.sensor_id ≥ (sensor_ct : Int) then (d, flag, [])
  else
    let end_of_mod := if flag then 7 else LS_END
    let lh := (LS_Params d.state).lh
    let le_offset :=
      apply_mod_offset ((le.timestamp + le.length / 2) % 4294967296) (modOff d lh) end_of_mod
    let new_state := (LighthouseState_findByOffset (le_offset : Int)).1
    let r :=
      if d.state ≠ new_state then ProcessStateChange othersBest flag sensor_ct d le new_state
      else (d, flag, [])
    let d := r.1
    let flag := r.2.1
    let out := r.2.2
    if (LS_Params d.state).is_sweep = false then
      let rc := RunACodeCapture othersBest flag sensor_ct (LSParam_acode d.state) d le
      (rc.1, rc.2, out)
    else
      if le.length > (d.sweep_data.getD le.sensor_id.toNat zeroLE).length ∧ le.length < 7000 then
        let d := if le.length > 3000 then { d with confidence := d.confidence - 1 } else d
        ({ d with sweep_data := d.sweep_data.set le.sensor_id.toNat le }, flag, out)
      else (d, flag, out)

/-- Modelled from the spec: `survive_timecode_difference` is defined outside
this repository's core sources; §4.5 of the spec describes it as
`event.timestamp - last_timestamp` "with timecode subtraction handling
wraparound", i.e. 32-bit unsigned subtraction. -/
def survive_timecode_difference (most_recent least_recent : Nat) : Nat :=
  u32sub most_recent least_recent

/-- `DisambiguatorStateBased` from the C source: the per-event entry point
for one tracked object.  `sensor_ct` and `timebase_hz` are the
`SurviveObject` fields the function reads; allocation of the global and
per-object data is modelled by starting runs from `initData`. -/
def DisambiguatorStateBased (othersBest : Bool) (flag : Bool)
    (sensor_ct timebase_hz : Nat) (d : Disambiguator_data_t) (le : LightcapElement) :
    Disambiguator_data_t × Bool × List LightprocCall :=
  if sensor_ct = 0 then (d, flag, [])
  else if d.stabalize < 200 then ({ d with stabalize := d.stabalize + 1 }, flag, [])
  else
    if d.state = 0 then
      let r := AttemptFindState othersBest flag d le
      let d := r.1
      let flag := r.2.1
      let new_state := r.2.2
      let s :=
        if new_state ≠ 0 then
          SetState othersBest flag sensor_ct { d with confidence := 0, failures := 0 } new_state
        else
          let d := { d with failures := d.failures + 1 }
          (if d.failures > 1000 then { d with failures := 0 } else d, flag)
      ({ s.1 with last_timestamp := le.timestamp }, s.2, [])
    else
      let timediff := survive_timecode_difference le.timestamp d.last_timestamp
      if timediff > timebase_hz then
        let penalty : Int := (timediff / timebase_hz : Nat) * 10
        if d.confidence < penalty then
          let s := SetState othersBest flag sensor_ct d 0
          -- early return: last_timestamp is NOT updated on this path
          (s.1, s.2, [])
        else
          let d := { d with confidence := d.confidence - penalty }
          let r := PropagateState othersBest flag sensor_ct d le
          ({ r.1 with last_timestamp := le.timestamp }, r.2.1, r.2.2)
      else
        let r := PropagateState othersBest flag sensor_ct d le
        ({ r.1 with last_timestamp := le.timestamp }, r.2.1, r.2.2)

/-- One tracked object of a context: its configuration and mutable state. -/
structure SurviveObjectState where
  sensor_ct : Nat
  timebase_hz : Nat
  d : Disambiguator_data_t
  deriving DecidableEq, Repr

/-- The per-context global state (C struct `Global_Disambiguator_data_t`)
together with the tracked objects and the stream of `lightproc` records
emitted so far (tagged with the emitting object's index). -/
structure SurviveContextState where
  single_60hz_mode : Bool
  objs : List SurviveObjectState
  outputs : List (Nat × LightprocCall)
  deriving DecidableEq, Repr

/-- `get_best_latest_state(g) != NULL` over a list of objects: some object is
locked (`state != LS_UNKNOWN`) with confidence above the running maximum
that starts at 0, i.e. with strictly positive confidence. -/
def get_best_latest_state (objs : List SurviveObjectState) : Bool :=
  objs.any (fun o => o.d.state ≠ 0 ∧ o.d.confidence > 0)

/-- A fresh context: flag clear, every object in its `calloc` state. -/
def initCtx (cfg : List (Nat × Nat)) : SurviveContextState :=
  ⟨false, cfg.map (fun c => ⟨c.1, c.2, initData c.1⟩), []⟩

/-- Process one event `(object index, capture element)` through the context:
dispatch to `DisambiguatorStateBased` for that object, with
`get_best_latest_state` evaluated over the other objects. -/
def ctxStep (ctx : SurviveContextState) (ev : Nat × LightcapElement) : SurviveContextState :=
  match ctx.objs.get? ev.1 with
  | none => ctx
  | some o =>
      let othersBest := get_best_latest_state (ctx.objs.eraseIdx ev.1)
      let r := DisambiguatorStateBased othersBest ctx.single_60hz_mode
                 o.sensor_ct o.timebase_hz o.d ev.2
      { single_60hz_mode := r.2.1,
        objs := ctx.objs.set ev.1 { o with d := r.1 },
        outputs := ctx.outputs ++ r.2.2.map (fun c => (ev.1, c)) }

/-- Run a whole event stream through a context. -/
def ctxRun (ctx : SurviveContextState) (evs : List (Nat × LightcapElement)) :
    SurviveContextState :=
  evs.foldl ctxStep ctx

/-- All intermediate contexts of a run (the trace), starting with the
initial context. -/
def ctxTrace (ctx : SurviveContextState) (evs : List (Nat × LightcapElement)) :
    List SurviveContextState :=
  evs.scanl ctxStep ctx

/-! ### Concrete event streams used as counterexample inputs -/

/-- The eight sync phases of the full dual-lighthouse cycle, in order. -/
def fullSyncPhases : List Nat := [1, 2, 4, 5, 7, 8, 10, 11]

/-- 200 warm-up events for object `idx` (the dispatcher drops the first 200
events of each object while `stabalize < 200`). -/
def warmupEvents (idx t0 : Nat) : List (Nat × LightcapElement) :=
  (List.range 200).map (fun k => (idx, ⟨0, 50, t0 + k⟩))

/-- 13 clean sync pulses walking the full-cycle sync phases from tick
`base`: pulse `k` sits exactly on the cumulative offset of its phase with
exactly the expected acode length.  The 13th pulse makes the lock-finder
succeed with 12 history inliers (full mode, anchor `base + 1600000`). -/
def fullLockSyncs (idx base : Nat) : List (Nat × LightcapElement) :=
  (List.range 13).map (fun k =>
    let ph := fullSyncPhases.getD (k % 8) 0
    (idx, ⟨0, ACODE_TIMING (LS_Params ph).acode,
           base + (k / 8) * 1600000 + LSParam_offset_for_state ph⟩))

/-- 13 clean sync pulses alternating the two first-half `lh = 0` sync phases
(2 and 5) on an 800000-tick cycle from `base`: the 13th makes the
lock-finder succeed in 60 Hz mode. -/
def hzLockSyncs (idx base : Nat) : List (Nat × LightcapElement) :=
  (List.range 13).map (fun k =>
    let ph := if k % 2 = 0 then 2 else 5
    (idx, ⟨0, ACODE_TIMING (LS_Params ph).acode,
           base + (k / 2) * 800000 + LSParam_offset_for_state ph⟩))

/-- `n` clean sync pulses inside the window of sync phase `ph` of the cycle
anchored at `base`, starting `t0off` ticks into the phase, spaced 600 ticks
apart, each of exactly the expected acode length. -/
def pulsesIn (idx base ph t0off n : Nat) : List (Nat × LightcapElement) :=
  (List.range n).map (fun j =>
    (idx, ⟨0, ACODE_TIMING (LS_Params ph).acode,
           base + LSParam_offset_for_state ph + t0off + j * 600⟩))

/-- Counterexample stream for the confidence-range claim: one object warms
up, locks on 13 clean syncs (anchor 1601000, state 5, confidence 0), then
receives one 400-tick pulse that maps into sync phase 7 with timing error
2350 > 1250: the mismatch path resets the state machine and then still
subtracts the penalty 3, driving confidence to -3. -/
def confStream : List (Nat × LightcapElement) :=
  warmupEvents 0 1 ++ fullLockSyncs 0 1000 ++ [(0, ⟨0, 400, 2401300⟩)]

/-- Counterexample stream for the sync-lightproc length claim: after the
same lock as `confStream`, 96 clean pulses (12 per sync phase, finishing the
anchor cycle and the next) drive confidence to 96; a single 7400-tick pulse
in acode-5 phase 11 still has timing error 1150 ≤ 1250 and becomes the
phase's longest aggregated sync; the final pulse leaves the phase and emits
a sync lightproc of length 7400. -/
def emitStream : List (Nat × LightcapElement) :=
  warmupEvents 0 1 ++ fullLockSyncs 0 1000 ++
  pulsesIn 0 1601000 7 600 12 ++ pulsesIn 0 1601000 8 0 12 ++
  pulsesIn 0 1601000 10 0 12 ++ pulsesIn 0 1601000 11 0 12 ++
  pulsesIn 0 3201000 1 0 12 ++ pulsesIn 0 3201000 2 0 12 ++
  pulsesIn 0 3201000 4 0 12 ++ pulsesIn 0 3201000 5 0 12 ++
  [(0, ⟨0, 7400, 4421300⟩), (0, ⟨0, 100, 4446000⟩)]

/-- Counterexample stream for the 60 Hz-flag claim, over two objects A
(index 0) and B (index 1): B locks in 60 Hz mode (first false-to-true
flip), then A locks in 60 Hz mode too (confidence 0); a single event after
100000000 ticks of silence unlocks B, and since A's confidence is 0 the
flag is cleared even though A is still locked; B then locks again in 60 Hz
mode (second false-to-true flip).  At no point are all objects
simultaneously unlocked between the two flips. -/
def flagStream : List (Nat × LightcapElement) :=
  warmupEvents 1 1 ++ hzLockSyncs 1 10000 ++
  warmupEvents 0 5500000 ++ hzLockSyncs 0 6000000 ++
  [(1, ⟨0, 50, 104830000⟩)] ++ hzLockSyncs 1 105000000

/-- One object with one sensor at 48 MHz. -/
def ctx1 : SurviveContextState := initCtx [(1, 48000000)]

/-- Two objects with one sensor each at 48 MHz. -/
def ctx2 : SurviveContextState := initCtx [(1, 48000000), (1, 48000000)]

/-! ### Claim C1: the rollover law for `apply_mod_offset` -/

/-- C1: the spec's rollover law `apply_mod_offset(0x00000100, 0xFFFFFF00,
1600000) == apply_mod_offset(0x200, 0, 1600000)` fails on the code, which
returns 511 on the left and 512 on the right: the rollover branch uses the
literal `0xFFFFFFFF` where the claimed corrected value `(2^32 - m + t) mod
cycle` (equal to 512 here) requires `2^32`, an off-by-one against the code's
own intent of bridging a 32-bit rollover. -/
theorem C1_rollover_law_fails_off_by_one :
    apply_mod_offset 0x00000100 0xFFFFFF00 LS_END = 511 ∧
    apply_mod_offset 0x200 0 LS_END = 512 ∧
    (2 ^ 32 - 0xFFFFFF00 + 0x00000100) % 1600000 = 512 ∧ (511 : Nat) ≠ 512 := by
  decide

/-! ### Claim C3: the overlap predicate -/

/-- Modelled from the claim's words (C3): the time intervals
`[timestamp, timestamp + length)` of the two events overlap by more than
half of the length of whichever of the two events has the earlier
timestamp. -/
def claimOverlaps (a b : LightcapElement) : Bool :=
  let lo := max a.timestamp b.timestamp
  let hi := min (a.timestamp + a.length) (b.timestamp + b.length)
  let geometric_overlap := hi - lo
  let earlier := if a.timestamp ≤ b.timestamp then a else b
  geometric_overlap > earlier.length / 2

/-- C3 (counterexample): for `a = (timestamp 10, length 20)` and
`b = (timestamp 0, length 100)` the geometric interval overlap is 20, not
more than half of the earlier event's length (50), so the claimed predicate
is false -- but the code returns true, because it measures the overhang
`b.timestamp + b.length - a.timestamp = 90` without clipping and compares it
against half of `a`'s length (10) regardless of which event is earlier. -/
theorem C3_overlaps_counterexample :
    overlaps ⟨0, 20, 10⟩ ⟨0, 100, 0⟩ = true ∧
    claimOverlaps ⟨0, 20, 10⟩ ⟨0, 100, 0⟩ = false := by
  decide

/-- C3 (amended): for events whose intervals do not wrap the 32-bit counter,
`overlaps a b` is true iff the later-starting event begins strictly inside
the other's interval and the distance from the later event's start to the
EARLIER event's end (not clipped to the later event's end) exceeds half the
length of the first argument `a` (not of the earlier event); events with
equal timestamps never overlap. -/
theorem C3_overlaps_characterization (a b : LightcapElement)
    (ha : a.timestamp + a.length < 4294967296)
    (hb : b.timestamp + b.length < 4294967296) :
    overlaps a b = true ↔
      (a.timestamp < b.timestamp ∧ b.timestamp < a.timestamp + a.length ∧
        a.length / 2 < a.timestamp + a.length - b.timestamp) ∨
      (b.timestamp < a.timestamp ∧ a.timestamp < b.timestamp + b.length ∧
        a.length / 2 < b.timestamp + b.length - a.timestamp) := by
  have h1 : (a.length + a.timestamp) % 4294967296 = a.length + a.timestamp :=
    Nat.mod_eq_of_lt (by omega)
  have h2 : (b.length + b.timestamp) % 4294967296 = b.length + b.timestamp :=
    Nat.mod_eq_of_lt (by omega)
  unfold overlaps
  rw [h1, h2]
  split_ifs with hc1 hc2 <;> simp only [decide_eq_true_eq] <;> omega

/-- C3 (witness): the characterization applied at the counterexample pair. -/
theorem C3_overlaps_characterization_witness :
    overlaps ⟨0, 20, 10⟩ ⟨0, 100, 0⟩ = true ↔
      ((10 : Nat) < 0 ∧ (0 : Nat) < 10 + 20 ∧ (20 : Nat) / 2 < 10 + 20 - 0) ∨
      ((0 : Nat) < 10 ∧ (10 : Nat) < 0 + 100 ∧ (20 : Nat) / 2 < 0 + 100 - 10) :=
  C3_overlaps_characterization ⟨0, 20, 10⟩ ⟨0, 100, 0⟩ (by decide) (by decide)

/-! ### Claim C7: `find_phase_by_offset` -/

/-- Monotonicity of the cumulative phase offsets. -/
theorem LSParam_offset_mono {a b : Nat} (h : a ≤ b) :
    LSParam_offset_for_state a ≤ LSParam_offset_for_state b := by
  induction b with
  | zero => simp_all
  | succ n ih =>
      rcases Nat.lt_or_ge a (n + 1) with hlt | hge
      · exact le_trans (ih (Nat.lt_succ_iff.mp hlt))
          (Nat.le_add_right _ _)
      · have : a = n + 1 := le_antisymm h hge
        subst this
        exact le_rfl

/-- The loop of `LighthouseState_findByOffset`: if every cumulative offset in
`[i, m)` is at most `offset` and the one at `m` strictly exceeds it, and `m`
is reached within the remaining fuel, the loop stops at iteration `m` and
returns the closest of phases `m-1` and `m` subject to the sweep rule. -/
theorem findByOffsetFrom_loop (offset : Int) :
    ∀ (fuel i m : Nat), i ≤ m → m < i + fuel →
      (∀ j, i ≤ j → j < m → ¬((LSParam_offset_for_state j : Int) > offset)) →
      (LSParam_offset_for_state m : Int) > offset →
      findByOffsetFrom offset i fuel =
        (if (if (LS_Params (m - 1)).is_sweep ∧
                (LSParam_offset_for_state m : Int) - offset > 1000 then false
             else decide (offset - (LSParam_offset_for_state (m - 1) : Int) >
                (LSParam_offset_for_state m : Int) - offset)) = true
         then (m, (LSParam_offset_for_state m : Int) - offset)
         else (m - 1, offset - (LSParam_offset_for_state (m - 1) : Int))) := by
  intro fuel
  induction fuel with
  | zero => intro i m him hm _ _; omega
  | succ fuel ih =>
      intro i m him hm hbelow habove
      rcases Nat.eq_or_lt_of_le him with heq | hlt
      · subst heq
        simp only [findByOffsetFrom, if_pos habove]
      · have hstep : ¬((LSParam_offset_for_state i : Int) > offset) :=
          hbelow i le_rfl hlt
        simp only [findByOffsetFrom, if_neg hstep]
        exact ih (i + 1) m hlt (by omega)
          (fun j hj hj2 => hbelow j (by omega) hj2) habove

/-- Modelled from the claim's words (C7): linearly search the cumulative
offsets for the phase whose start is closest to the given offset; tie-break:
when that nearer phase is a sweep and the distance from the offset to the
nearer phase's end exceeds 1000 ticks, return the other straddling phase
instead. -/
def claimPhase (offset : Int) : Nat :=
  let p := ((List.range 13).filter
    (fun i => decide ((LSParam_offset_for_state i : Int) ≤ offset))).length - 1
  let n := p + 1
  let dist_p := offset - (LSParam_offset_for_state p : Int)
  let dist_n := (LSParam_offset_for_state n : Int) - offset
  let nearest := if dist_n < dist_p then n else p
  let other := if dist_n < dist_p then p else n
  let dist_to_end := (LSParam_offset_for_state (nearest + 1) : Int) - offset
  if (LS_Params nearest).is_sweep ∧ dist_to_end > 1000 then other else nearest

/-- C7 (counterexample): at offset 300000 (inside sweep phase 3), the phase
with the closest cumulative start is phase 4 (distance 100000 versus 260000
to phase 3's start), and phase 4 is not a sweep, so the claimed rule
returns 4 -- but the code returns 3: its sweep rule fires on the EARLIER
phase (3, a sweep, with more than 1000 ticks left to its end), not on the
nearer one. -/
theorem C7_findByOffset_counterexample :
    (LighthouseState_findByOffset 300000).1 = 3 ∧ claimPhase 300000 = 4 ∧
    (3 : Nat) ≠ 4 := by
  decide

/-- C7 (amended): for an offset straddled by phases `k` and `k+1`
(`1 ≤ k ≤ 12`), the code returns phase `k+1` exactly when `k+1`'s start is
strictly nearer than `k`'s AND it is not the case that phase `k` (the
earlier phase, the one the offset lies in) is a sweep with the offset more
than 1000 ticks before its end; in the latter case the earlier sweep phase
`k` is kept even when `k+1`'s start is nearer. -/
theorem C7_findByOffset_characterization (offset : Int) (k : Nat)
    (h1 : 1 ≤ k) (h2 : k ≤ 12)
    (hlo : (LSParam_offset_for_state k : Int) ≤ offset)
    (hhi : offset < LSParam_offset_for_state (k + 1)) :
    (LighthouseState_findByOffset offset).1 =
      if (LS_Params k).is_sweep = true ∧
          (LSParam_offset_for_state (k + 1) : Int) - offset > 1000 then k
      else if offset - (LSParam_offset_for_state k : Int) >
          (LSParam_offset_for_state (k + 1) : Int) - offset then k + 1
      else k := by
  have hloop := findByOffsetFrom_loop offset 12 2 (k + 1) (by omega) (by omega)
    (fun j _ hj => by
      have hmono : LSParam_offset_for_state j ≤ LSParam_offset_for_state k :=
        LSParam_offset_mono (by omega)
      push_neg
      exact le_trans (by exact_mod_cast hmono) hlo)
    hhi
  unfold LighthouseState_findByOffset
  rw [hloop]
  simp only [Nat.add_sub_cancel]
  split_ifs with hsw hgt hgt2 hgt3 hgt4 <;> simp_all

/-- C7 (witness): the characterization applied at offset 300000 in phase 3. -/
theorem C7_findByOffset_characterization_witness :
    (LighthouseState_findByOffset 300000).1 =
      if (LS_Params 3).is_sweep = true ∧
          (LSParam_offset_for_state 4 : Int) - 300000 > 1000 then 3
      else if (300000 : Int) - (LSParam_offset_for_state 3 : Int) >
          (LSParam_offset_for_state 4 : Int) - 300000 then 4
      else 3 :=
  C7_findByOffset_characterization 300000 3 (by decide) (by decide)
    (by decide) (by decide)

/-! ### Projection lemmas for the state-updating helpers -/

theorem AddSyncHistory_confidence (d : Disambiguator_data_t) (s : LightcapElement) :
    (AddSyncHistory d s).confidence = d.confidence := by
  simp only [AddSyncHistory]; split_ifs <;> rfl

theorem AddSyncHistory_state (d : Disambiguator_data_t) (s : LightcapElement) :
    (AddSyncHistory d s).state = d.state := by
  simp only [AddSyncHistory]; split_ifs <;> rfl

theorem AddSyncHistory_count (d : Disambiguator_data_t) (s : LightcapElement) :
    (AddSyncHistory d s).last_sync_count = d.last_sync_count := by
  simp only [AddSyncHistory]; split_ifs <;> rfl

theorem AddSyncHistory_longest (d : Disambiguator_data_t) (s : LightcapElement) :
    (AddSyncHistory d s).longest_sync_length = d.longest_sync_length := by
  simp only [AddSyncHistory]; split_ifs <;> rfl

theorem setModOff_confidence (d : Disambiguator_data_t) (lh : Int) (v : Nat) :
    (setModOff d lh v).confidence = d.confidence := by
  simp only [setModOff]; split_ifs <;> rfl

theorem setModOff_state (d : Disambiguator_data_t) (lh : Int) (v : Nat) :
    (setModOff d lh v).state = d.state := by
  simp only [setModOff]; split_ifs <;> rfl

theorem setModOff_count (d : Disambiguator_data_t) (lh : Int) (v : Nat) :
    (setModOff d lh v).last_sync_count = d.last_sync_count := by
  simp only [setModOff]; split_ifs <;> rfl

theorem setModOff_longest (d : Disambiguator_data_t) (lh : Int) (v : Nat) :
    (setModOff d lh v).longest_sync_length = d.longest_sync_length := by
  simp only [setModOff]; split_ifs <;> rfl

theorem RegisterSync_confidence (d : Disambiguator_data_t) (le : LightcapElement) :
    (RegisterSync d le).confidence = d.confidence := by
  simp only [RegisterSync]; split_ifs <;> rfl

theorem RegisterSync_state (d : Disambiguator_data_t) (le : LightcapElement) :
    (RegisterSync d le).state = d.state := by
  simp only [RegisterSync]; split_ifs <;> rfl

theorem SetState_confidence (ob fl : Bool) (ct : Nat) (d : Disambiguator_data_t) (s : Nat) :
    ((SetState ob fl ct d s).1).confidence = d.confidence := by
  simp only [SetState]; split_ifs <;> rfl

theorem SetState_state (ob fl : Bool) (ct : Nat) (d : Disambiguator_data_t) (s : Nat) :
    ((SetState ob fl ct d s).1).state = if s ≥ LS_END then 1 else s := by
  simp only [SetState]; split_ifs <;> rfl

theorem SetState_count (ob fl : Bool) (ct : Nat) (d : Disambiguator_data_t) (s : Nat) :
    ((SetState ob fl ct d s).1).last_sync_count = 0 := by
  simp only [SetState]; split_ifs <;> rfl

theorem SetState_longest (ob fl : Bool) (ct : Nat) (d : Disambiguator_data_t) (s : Nat) :
    ((SetState ob fl ct d s).1).longest_sync_length = 0 := by
  simp only [SetState]; split_ifs <;> rfl

theorem ProcessStateChange_count_eq (ob fl : Bool) (ct : Nat)
    (d : Disambiguator_data_t) (le : LightcapElement) (ns : Nat) :
    ((ProcessStateChange ob fl ct d le ns).1).last_sync_count = 0 := by
  simp only [ProcessStateChange]
  split
  · split
    · simp [SetState_count]
    · simp [SetState_count]
  · simp [SetState_count]

theorem ProcessStateChange_longest_eq (ob fl : Bool) (ct : Nat)
    (d : Disambiguator_data_t) (le : LightcapElement) (ns : Nat) :
    ((ProcessStateChange ob fl ct d le ns).1).longest_sync_length = 0 := by
  simp only [ProcessStateChange]
  split
  · split
    · simp [SetState_longest]
    · simp [SetState_longest]
  · simp [SetState_longest]

theorem ProcessStateChange_confidence (ob fl : Bool) (ct : Nat)
    (d : Disambiguator_data_t) (le : LightcapElement) (ns : Nat) :
    ((ProcessStateChange ob fl ct d le ns).1).confidence = d.confidence := by
  simp only [ProcessStateChange]
  split
  · split
    · simp [SetState_confidence, setModOff_confidence, AddSyncHistory_confidence]
    · simp [SetState_confidence]
  · simp [SetState_confidence]

theorem ProcessStateChange_state (ob fl : Bool) (ct : Nat)
    (d : Disambiguator_data_t) (le : LightcapElement) (ns : Nat) :
    ((ProcessStateChange ob fl ct d le ns).1).state = if ns ≥ LS_END then 1 else ns := by
  simp only [ProcessStateChange]
  split
  · split
    · simp [SetState_state]
    · simp [SetState_state]
  · simp [SetState_state]

/-! ### Claim C6: sweep-phase processing -/

/-- A tracker locked in sweep phase 3 whose single sweep slot already holds
a 4000-tick pulse. -/
def c6dFull : Disambiguator_data_t :=
  { initData 1 with state := 3, confidence := 50, sweep_data := [⟨0, 4000, 295000⟩] }

/-- A tracker locked in sweep phase 3 with an empty sweep slot. -/
def c6dEmpty : Disambiguator_data_t :=
  { initData 1 with state := 3, confidence := 50 }

/-- C6 (counterexample): two sweep-phase events refuting both halves of the
claim.  A 3500-tick pulse (> 3000) arriving while the slot holds a longer
4000-tick pulse does NOT decrement confidence (the decrement in the code is
conditional on the slot being replaced); and a 300-tick pulse arriving on
an empty slot IS stored even though the claimed condition `400 < length`
fails (the code has no 400-tick lower bound in the sweep branch). -/
theorem C6_sweep_counterexample :
    (PropagateState false false 1 c6dFull ⟨0, 3500, 300000⟩).1.confidence =
        c6dFull.confidence ∧ 3000 < 3500 ∧
    (PropagateState false false 1 c6dEmpty ⟨0, 300, 300000⟩).1.sweep_data =
        [⟨0, 300, 300000⟩] ∧ ¬ (400 < 300) := by
  decide

/-- C6 (amended): for an event processed in a sweep phase (no phase
transition), the sweep slot of the event's sensor is replaced exactly when
the event is strictly longer than the stored pulse and shorter than 7000
ticks (no 400-tick lower bound), and confidence is decremented by 1 exactly
when additionally the length exceeds 3000 ticks. -/
theorem C6_sweep_characterization (ob fl : Bool) (ct : Nat)
    (d : Disambiguator_data_t) (le : LightcapElement)
    (hct : le.sensor_id < (ct : Int))
    (hnotrans : (LighthouseState_findByOffset
        ((apply_mod_offset ((le.timestamp + le.length / 2) % 4294967296)
          (modOff d (LS_Params d.state).lh) (if fl then 7 else LS_END) : Nat) : Int)).1 =
        d.state)
    (hsweep : (LS_Params d.state).is_sweep = true) :
    (PropagateState ob fl ct d le).1.confidence =
      d.confidence -
        (if (d.sweep_data.getD le.sensor_id.toNat zeroLE).length < le.length ∧
            le.length < 7000 ∧ 3000 < le.length then 1 else 0) ∧
    (PropagateState ob fl ct d le).1.sweep_data =
      (if (d.sweep_data.getD le.sensor_id.toNat zeroLE).length < le.length ∧
          le.length < 7000 then d.sweep_data.set le.sensor_id.toNat le
       else d.sweep_data) := by
  have hg : ¬(le.sensor_id ≥ (ct : Int)) := not_le.mpr hct
  simp only [PropagateState, if_neg hg, hnotrans, ne_eq, not_true_eq_false,
    if_false, ite_not, if_pos rfl]
  simp only [hsweep]
  split_ifs <;> simp_all <;> omega

/-- C6 (witness): a 500-tick pulse on an empty slot in sweep phase 3 is
stored and no confidence is charged. -/
theorem C6_sweep_characterization_witness :
    (PropagateState false false 1 c6dEmpty ⟨0, 500, 300000⟩).1.confidence =
      c6dEmpty.confidence -
        (if (c6dEmpty.sweep_data.getD (0 : Int).toNat zeroLE).length < 500 ∧
            (500 : Nat) < 7000 ∧ (3000 : Nat) < 500 then 1 else 0) ∧
    (PropagateState false false 1 c6dEmpty ⟨0, 500, 300000⟩).1.sweep_data =
      (if (c6dEmpty.sweep_data.getD (0 : Int).toNat zeroLE).length < 500 ∧
          (500 : Nat) < 7000 then c6dEmpty.sweep_data.set (0 : Int).toNat ⟨0, 500, 300000⟩
       else c6dEmpty.sweep_data) :=
  C6_sweep_characterization false false 1 c6dEmpty ⟨0, 500, 300000⟩
    (by decide) (by decide) (by decide)

/-! ### Claim C8: sync-phase timing mismatches strictly decrease confidence -/

/-- In `RunACodeCapture`, an event above the noise floor whose timing error
exceeds 1250 costs exactly 3 confidence (the state-machine reset that may
accompany it does not touch confidence). -/
theorem RunACodeCapture_mismatch (ob fl : Bool) (ct a : Nat)
    (d : Disambiguator_data_t) (le : LightcapElement)
    (hlen : 400 ≤ le.length) (herr : 1250 < calculate_error a le) :
    (RunACodeCapture ob fl ct a d le).1.confidence = d.confidence - 3 := by
  simp only [RunACodeCapture, if_neg (by omega : ¬ le.length < 400), if_pos herr]
  split_ifs <;> simp [SetState_confidence]

/-- C8: for an event processed in a sync phase (after the phase transition,
if any, with the out-of-range remap applied), if the event clears the
400-tick noise floor (events below it are ignored, per the spec) and its
length disagrees with the phase's expected acode timing by more than 1250
ticks (taking the smaller error over the acode with and without the data
bit), confidence strictly decreases -- by 3, even when the mismatch also
resets the state machine. -/
theorem C8_sync_mismatch_decreases_confidence (ob fl : Bool) (ct : Nat)
    (d : Disambiguator_data_t) (le : LightcapElement) (ns : Nat)
    (hstate : d.state ≤ 12)
    (hct : le.sensor_id < (ct : Int))
    (hlen : 400 ≤ le.length)
    (hns : ns = (LighthouseState_findByOffset
        ((apply_mod_offset ((le.timestamp + le.length / 2) % 4294967296)
          (modOff d (LS_Params d.state).lh) (if fl then 7 else LS_END) : Nat) : Int)).1)
    (hsync : (LS_Params (if ns ≥ LS_END then 1 else ns)).is_sweep = false)
    (herr : 1250 < calculate_error (LSParam_acode (if ns ≥ LS_END then 1 else ns)) le) :
    (PropagateState ob fl ct d le).1.confidence < d.confidence := by
  have hg : ¬(le.sensor_id ≥ (ct : Int)) := not_le.mpr hct
  simp only [PropagateState, if_neg hg]
  rw [← hns]
  by_cases hchange : d.state = ns
  · have hc12 : ¬ (ns ≥ LS_END) := by simp only [LS_END]; omega
    rw [if_neg hc12] at hsync herr
    simp only [hchange, ne_eq, not_true_eq_false, if_false, ite_false]
    simp only [← hchange] at hsync herr ⊢
    rw [if_pos hsync, RunACodeCapture_mismatch ob fl ct _ d le hlen herr]
    omega
  · rw [if_pos (show d.state ≠ ns from hchange)]
    have hst := ProcessStateChange_state ob fl ct d le ns
    have hcf := ProcessStateChange_confidence ob fl ct d le ns
    rw [hst]
    rw [if_pos hsync,
      RunACodeCapture_mismatch _ _ ct _ _ le hlen herr, hcf]
    omega

/-- A tracker locked in sync phase 5 with confidence 10 and anchor 0. -/
def c8d : Disambiguator_data_t := { initData 1 with state := 5, confidence := 10 }

/-- C8 (witness): a 400-tick pulse whose midpoint maps to sync phase 7
(expected acode 0, timing error 2350) strictly decreases confidence. -/
theorem C8_sync_mismatch_witness :
    (PropagateState false false 1 c8d ⟨0, 400, 800300⟩).1.confidence < c8d.confidence :=
  C8_sync_mismatch_decreases_confidence false false 1 c8d ⟨0, 400, 800300⟩ 7
    (by decide) (by decide) (by decide) (by decide) (by decide) (by decide)

/-! ### Claim C9: the silence-timeout path of the dispatcher -/

/-- C9: once warmed up and locked, an event whose wraparound-corrected
timecode difference from the previous event exceeds `timebase_hz` is
penalised by `10 * (timediff / timebase_hz)` with integer division: if
confidence is below the penalty the state is forced to `UNKNOWN` (via
`SetState`) and the event undergoes no further processing (no lightproc
output, `last_timestamp` not even updated); otherwise exactly the penalty is
subtracted before normal phase processing. -/
theorem C9_silence_timeout (ob fl : Bool) (ct tbhz : Nat)
    (d : Disambiguator_data_t) (le : LightcapElement) (p : Int)
    (hct : ct ≠ 0) (hwarm : ¬ d.stabalize < 200) (hlock : d.state ≠ 0)
    (hsil : tbhz < survive_timecode_difference le.timestamp d.last_timestamp)
    (hp : p = ((survive_timecode_difference le.timestamp d.last_timestamp / tbhz : Nat) * 10 : Int)) :
    (d.confidence < p →
      DisambiguatorStateBased ob fl ct tbhz d le =
        ((SetState ob fl ct d 0).1, (SetState ob fl ct d 0).2, [])) ∧
    (¬ d.confidence < p →
      DisambiguatorStateBased ob fl ct tbhz d le =
        ({ (PropagateState ob fl ct { d with confidence := d.confidence - p } le).1 with
             last_timestamp := le.timestamp },
         (PropagateState ob fl ct { d with confidence := d.confidence - p } le).2.1,
         (PropagateState ob fl ct { d with confidence := d.confidence - p } le).2.2)) := by
  subst hp
  simp only [DisambiguatorStateBased, if_neg hct, if_neg hwarm, if_neg hlock,
    if_pos hsil]
  constructor
  · intro h
    rw [if_pos h]
  · intro h
    rw [if_neg h]

/-- A warmed-up tracker locked in phase 5 with confidence 0 whose last event
was at tick 0. -/
def c9d : Disambiguator_data_t := { initData 1 with state := 5, stabalize := 200 }

/-! ### The tracker invariant: state range, confidence cap, aggregate bounds -/

/-- The inductive invariant maintained by every dispatcher step: the stored
state is at most 12 (below `LS_END`), confidence never exceeds 100, the
aggregate registers are zero together, and a non-empty sync aggregate always
has its longest length within 1250 ticks of some acode timing, i.e. in
`[1500, 7500]`. -/
def Inv (d : Disambiguator_data_t) : Prop :=
  d.state ≤ 12 ∧ d.confidence ≤ 100 ∧
  (d.last_sync_count = 0 → d.longest_sync_length = 0) ∧
  (0 < d.last_sync_count →
    1500 ≤ d.longest_sync_length ∧ d.longest_sync_length ≤ 7500)

/-- Every acode timing lies in `[2750, 6250]` (only bits 0-2 of the acode
contribute). -/
theorem ACODE_TIMING_bounds (a : Nat) :
    2750 ≤ ACODE_TIMING a ∧ ACODE_TIMING a ≤ 6250 := by
  have h1 : a &&& 1 ≤ 1 := Nat.and_le_right
  have h2 : (a >>> 1) &&& 1 ≤ 1 := Nat.and_le_right
  have h3 : (a >>> 2) &&& 1 ≤ 1 := Nat.and_le_right
  unfold ACODE_TIMING
  omega

/-- A pulse length whose timing error against some acode is at most 1250
lies in `[1500, 7500]`. -/
theorem calculate_error_length_bounds (a : Nat) (le : LightcapElement)
    (h : calculate_error a le ≤ 1250) :
    1500 ≤ le.length ∧ le.length ≤ 7500 := by
  have h0 := ACODE_TIMING_bounds a
  have h1 := ACODE_TIMING_bounds (a ||| DATA_BIT)
  simp only [calculate_error] at h
  split_ifs at h <;> omega

theorem ResetSync_inv (d : Disambiguator_data_t) (h : Inv d) : Inv (ResetSync d) := by
  obtain ⟨h1, h2, _, _⟩ := h
  exact ⟨h1, h2, fun _ => rfl, by intro hc; exact absurd hc (by simp [ResetSync])⟩

theorem RegisterSync_inv (d : Disambiguator_data_t) (le : LightcapElement)
    (hlo : 1500 ≤ le.length) (hhi : le.length ≤ 7500) (h : Inv d) :
    Inv (RegisterSync d le) := by
  obtain ⟨h1, h2, h3, h4⟩ := h
  simp only [RegisterSync]
  split_ifs with hf hl hl <;>
    refine ⟨h1, h2, ?_, ?_⟩ <;> dsimp only at * <;> omega

theorem AddSyncHistory_inv (d : Disambiguator_data_t) (s : LightcapElement)
    (h : Inv d) : Inv (AddSyncHistory d s) := by
  obtain ⟨h1, h2, h3, h4⟩ := h
  simp only [AddSyncHistory]
  split_ifs <;> exact ⟨h1, h2, h3, h4⟩

theorem setModOff_inv (d : Disambiguator_data_t) (lh : Int) (v : Nat)
    (h : Inv d) : Inv (setModOff d lh v) := by
  obtain ⟨h1, h2, h3, h4⟩ := h
  simp only [setModOff]
  split_ifs <;> exact ⟨h1, h2, h3, h4⟩

theorem SetState_inv (ob fl : Bool) (ct : Nat) (d : Disambiguator_data_t) (s : Nat)
    (h : Inv d) : Inv ((SetState ob fl ct d s).1) := by
  obtain ⟨_, h2, _, _⟩ := h
  refine ⟨?_, ?_, ?_, ?_⟩
  · rw [SetState_state]; simp only [LS_END]; split_ifs <;> omega
  · rw [SetState_confidence]; exact h2
  · intro _; rw [SetState_longest]
  · rw [SetState_count]; omega

theorem RunACodeCapture_inv (ob fl : Bool) (ct a : Nat)
    (d : Disambiguator_data_t) (le : LightcapElement) (h : Inv d) :
    Inv ((RunACodeCapture ob fl ct a d le).1) := by
  simp only [RunACodeCapture]
  split_ifs with hsmall herr hconf hcap
  · exact h
  · -- mismatch with reset
    obtain ⟨s1, s2, s3, s4⟩ := SetState_inv ob fl ct d 0 h
    refine ⟨s1, ?_, s3, s4⟩
    dsimp only
    omega
  · -- mismatch without reset
    obtain ⟨h1, h2, h3, h4⟩ := h
    refine ⟨h1, ?_, h3, h4⟩
    dsimp only
    omega
  · -- hit with confidence bump
    obtain ⟨h1, h2, h3, h4⟩ := h
    have hb := calculate_error_length_bounds a le (by omega)
    exact RegisterSync_inv _ le hb.1 hb.2 ⟨h1, by dsimp only; omega, h3, h4⟩
  · -- hit at the cap
    obtain ⟨h1, h2, h3, h4⟩ := h
    have hb := calculate_error_length_bounds a le (by omega)
    exact RegisterSync_inv _ le hb.1 hb.2 ⟨h1, h2, h3, h4⟩

theorem ProcessStateChange_inv (ob fl : Bool) (ct : Nat)
    (d : Disambiguator_data_t) (le : LightcapElement) (ns : Nat) (h : Inv d) :
    Inv ((ProcessStateChange ob fl ct d le ns).1) := by
  obtain ⟨_, h2, _, _⟩ := h
  have hc := ProcessStateChange_confidence ob fl ct d le ns
  have hs := ProcessStateChange_state ob fl ct d le ns
  refine ⟨?_, ?_, ?_, ?_⟩
  · rw [hs]; simp only [LS_END]; split_ifs <;> omega
  · omega
  · rw [ProcessStateChange_count_eq ob fl ct d le ns]
    intro
    rw [ProcessStateChange_longest_eq ob fl ct d le ns]
  · rw [ProcessStateChange_count_eq ob fl ct d le ns]
    omega

theorem Inv_set_sweep (d : Disambiguator_data_t) (l : List LightcapElement)
    (h : Inv d) : Inv { d with sweep_data := l } :=
  ⟨h.1, h.2.1, h.2.2.1, h.2.2.2⟩

theorem Inv_conf_dec (d : Disambiguator_data_t) (h : Inv d) :
    Inv { d with confidence := d.confidence - 1 } := by
  refine ⟨h.1, ?_, h.2.2.1, h.2.2.2⟩
  have := h.2.1
  dsimp only
  omega

theorem Inv_lws (d : Disambiguator_data_t) (b : Bool) (h : Inv d) :
    Inv { d with lastWasSync := b } :=
  ⟨h.1, h.2.1, h.2.2.1, h.2.2.2⟩

theorem Inv_lts (d : Disambiguator_data_t) (t : Nat) (h : Inv d) :
    Inv { d with last_timestamp := t } :=
  ⟨h.1, h.2.1, h.2.2.1, h.2.2.2⟩

theorem Inv_failures (d : Disambiguator_data_t) (n : Nat) (h : Inv d) :
    Inv { d with failures := n } :=
  ⟨h.1, h.2.1, h.2.2.1, h.2.2.2⟩

theorem Inv_conf0 (d : Disambiguator_data_t) (h : Inv d) :
    Inv { d with confidence := 0, failures := 0 } := by
  refine ⟨h.1, ?_, h.2.2.1, h.2.2.2⟩
  dsimp only
  omega

theorem PropagateState_inv (ob fl : Bool) (ct : Nat) (d : Disambiguator_data_t)
    (le : LightcapElement) (h : Inv d) : Inv ((PropagateState ob fl ct d le).1) := by
  simp only [PropagateState]
  repeat' split
  all_goals first
    | exact h
    | exact ProcessStateChange_inv _ _ _ _ _ _ h
    | exact RunACodeCapture_inv _ _ _ _ _ _ h
    | exact RunACodeCapture_inv _ _ _ _ _ _ (ProcessStateChange_inv _ _ _ _ _ _ h)
    | exact Inv_set_sweep _ _ (Inv_conf_dec _ h)
    | exact Inv_set_sweep _ _ (Inv_conf_dec _ (ProcessStateChange_inv _ _ _ _ _ _ h))
    | exact Inv_set_sweep _ _ h
    | exact Inv_set_sweep _ _ (ProcessStateChange_inv _ _ _ _ _ _ h)

theorem EndSync_inv (ob fl : Bool) (d : Disambiguator_data_t) (h : Inv d) :
    Inv ((EndSync ob fl d).1) := by
  simp only [EndSync]
  split
  · exact AddSyncHistory_inv d (get_last_sync d) h
  · exact AddSyncHistory_inv d (get_last_sync d) h

theorem AttemptFindState_inv (ob fl : Bool) (d : Disambiguator_data_t)
    (le : LightcapElement) (h : Inv d) : Inv ((AttemptFindState ob fl d le).1) := by
  have hcl : naive_classify le = true → 1500 ≤ le.length ∧ le.length ≤ 7500 := by
    simp only [naive_classify, decide_eq_true_eq, not_or]
    omega
  by_cases hsync : naive_classify le = true
  · have hb := hcl hsync
    simp only [AttemptFindState, hsync, if_true]
    repeat' split
    all_goals first
      | exact h
      | exact EndSync_inv ob fl d h
      | exact Inv_lws _ _ (RegisterSync_inv _ le hb.1 hb.2 (ResetSync_inv _ (EndSync_inv ob fl d h)))
      | exact Inv_lws _ _ (RegisterSync_inv _ le hb.1 hb.2 (ResetSync_inv _ h))
      | exact Inv_lws _ _ (RegisterSync_inv _ le hb.1 hb.2 h)
  · rw [Bool.not_eq_true] at hsync
    simp only [AttemptFindState, hsync, Bool.false_eq_true, if_false]
    repeat' split
    all_goals first
      | exact h
      | exact EndSync_inv ob fl d h

theorem DisambiguatorStateBased_inv (ob fl : Bool) (ct tbhz : Nat)
    (d : Disambiguator_data_t) (le : LightcapElement) (h : Inv d) :
    Inv ((DisambiguatorStateBased ob fl ct tbhz d le).1) := by
  by_cases h0 : ct = 0
  · simp only [DisambiguatorStateBased, if_pos h0]
    exact h
  by_cases h1 : d.stabalize < 200
  · simp only [DisambiguatorStateBased, if_neg h0, if_pos h1]
    exact ⟨h.1, h.2.1, h.2.2.1, h.2.2.2⟩
  by_cases h2 : d.state = 0
  · simp only [DisambiguatorStateBased, if_neg h0, if_neg h1, if_pos h2]
    by_cases h3 : (AttemptFindState ob fl d le).2.2 ≠ 0
    · rw [if_pos h3]
      exact Inv_lts _ _ (SetState_inv _ _ _ _ _
        (Inv_conf0 _ (AttemptFindState_inv ob fl d le h)))
    · rw [if_neg h3]
      split
      · exact Inv_lts _ _ (Inv_failures _ _ (Inv_failures _ _
          (AttemptFindState_inv ob fl d le h)))
      · exact Inv_lts _ _ (Inv_failures _ _ (AttemptFindState_inv ob fl d le h))
  · simp only [DisambiguatorStateBased, if_neg h0, if_neg h1, if_neg h2]
    by_cases h3 : survive_timecode_difference le.timestamp d.last_timestamp > tbhz
    · rw [if_pos h3]
      by_cases h4 : d.confidence <
          ((survive_timecode_difference le.timestamp d.last_timestamp / tbhz : Nat) * 10 : Int)
      · rw [if_pos h4]
        exact SetState_inv ob fl ct d 0 h
      · rw [if_neg h4]
        refine Inv_lts _ _ (PropagateState_inv _ _ _ _ _ ⟨h.1, ?_, h.2.2.1, h.2.2.2⟩)
        have hconf := h.2.1
        have hf : (0 : Int) ≤
            ((survive_timecode_difference le.timestamp d.last_timestamp / tbhz : Nat) : Int) :=
          Int.natCast_nonneg _
        dsimp only
        omega
    · rw [if_neg h3]
      exact Inv_lts _ _ (PropagateState_inv _ _ _ _ _ h)

/-- C9 (witness): after 100000000 silent ticks (about 2 seconds at 48 MHz),
the penalty is 20, confidence 0 is below it, and the step reduces to the
state reset with no output. -/
theorem C9_silence_timeout_witness :
    DisambiguatorStateBased false false 1 48000000 c9d ⟨0, 50, 100000000⟩ =
      ((SetState false false 1 c9d 0).1, (SetState false false 1 c9d 0).2, []) :=
  (C9_silence_timeout false false 1 48000000 c9d ⟨0, 50, 100000000⟩ 20
    (by decide) (by decide) (by decide) (by decide) (by decide)).1 (by decide)

/-! ### The invariant lifted to contexts and runs -/

/-- The per-object invariant holds for every tracked object of a context. -/
def CtxInv (ctx : SurviveContextState) : Prop := ∀ o ∈ ctx.objs, Inv o.d

theorem forall_mem_set {α : Type} (P : α → Prop) :
    ∀ (l : List α) (n : Nat) (x : α), (∀ y ∈ l, P y) → P x → ∀ y ∈ l.set n x, P y := by
  intro l
  induction l with
  | nil => intro n x _ _ y hy; simp at hy
  | cons a t ih =>
      intro n x hl hx y hy
      cases n with
      | zero =>
          rw [List.set_cons_zero] at hy
          rcases List.mem_cons.mp hy with hy | hy
          · exact hy ▸ hx
          · exact hl y (List.mem_cons_of_mem a hy)
      | succ m =>
          rw [List.set_cons_succ] at hy
          rcases List.mem_cons.mp hy with hy | hy
          · exact hy ▸ hl a (List.mem_cons_self a t)
          · exact ih m x (fun z hz => hl z (List.mem_cons_of_mem a hz)) hx y hy

theorem ctxStep_inv (ctx : SurviveContextState) (ev : Nat × LightcapElement)
    (h : CtxInv ctx) : CtxInv (ctxStep ctx ev) := by
  unfold ctxStep
  cases hq : ctx.objs.get? ev.1 with
  | none => exact h
  | some o =>
      intro y hy
      exact forall_mem_set (fun z => Inv z.d) ctx.objs ev.1 _ (fun z hz => h z hz)
        (DisambiguatorStateBased_inv _ _ _ _ _ _ (h o (List.get?_mem hq))) y hy

theorem ctxRun_inv (evs : List (Nat × LightcapElement)) :
    ∀ ctx, CtxInv ctx → CtxInv (ctxRun ctx evs) := by
  induction evs with
  | nil => intro ctx h; exact h
  | cons e t ih => intro ctx h; exact ih _ (ctxStep_inv _ _ h)

theorem Inv_initData (ct : Nat) : Inv (initData ct) :=
  ⟨by norm_num [initData], by norm_num [initData], fun _ => rfl,
   by intro hc; exact absurd hc (by norm_num [initData])⟩

theorem initCtx_inv (cfg : List (Nat × Nat)) : CtxInv (initCtx cfg) := by
  intro o ho
  simp only [initCtx, List.mem_map] at ho
  obtain ⟨c, _, rfl⟩ := ho
  exact Inv_initData c.1

/-! ### Claim C2: the confidence range -/

/-- C2 (counterexample): after warm-up, a clean lock (confidence 0) and one
mismatching 400-tick pulse in a sync phase, the mismatch path resets the
state machine and still subtracts the penalty 3, so the tracked object's
confidence is negative -- the claimed interval `[0, 100]` does not hold. -/
theorem C2_confidence_counterexample :
    ((ctxRun ctx1 confStream).objs.getD 0 ⟨0, 0, initData 0⟩).d.confidence < 0 := by
  decide

/-- C2 (amended): over every input event stream from a fresh context, every
tracked object's confidence stays at most 100 (increments are guarded by
`confidence < 100` and a fresh lock resets it to 0) -- but it is not
clamped below 0: mismatch, sweep and silence penalties can drive it
negative. -/
theorem C2_confidence_at_most_100 (cfg : List (Nat × Nat))
    (evs : List (Nat × LightcapElement)) :
    ∀ o ∈ (ctxRun (initCtx cfg) evs).objs, o.d.confidence ≤ 100 := by
  intro o ho
  exact (ctxRun_inv evs (initCtx cfg) (initCtx_inv cfg) o ho).2.1

/-- C2 (witness): the cap applied to a fresh one-object context. -/
theorem C2_confidence_at_most_100_witness :
    (⟨1, 48000000, initData 1⟩ : SurviveObjectState).d.confidence ≤ 100 :=
  C2_confidence_at_most_100 [(1, 48000000)] [] ⟨1, 48000000, initData 1⟩ (by decide)

/-! ### Claim C10: the stored state stays below LS_END -/

/-- C10: after every call to the per-event entry point on any stream from a
fresh context, each tracked object's stored state is `UNKNOWN` (0) or a
phase index strictly below `LS_END` (13): the phase lookup can yield
`LS_END` for offsets near the cycle end, but `SetState` remaps any proposed
state at or above `LS_END` to phase 1, so an out-of-range index is never
retained. -/
theorem C10_state_always_below_LS_END (cfg : List (Nat × Nat))
    (evs : List (Nat × LightcapElement)) :
    ∀ o ∈ (ctxRun (initCtx cfg) evs).objs, o.d.state < LS_END := by
  intro o ho
  have h1 := (ctxRun_inv evs (initCtx cfg) (initCtx_inv cfg) o ho).1
  simp only [LS_END]
  omega

/-- C10 (witness): the bound applied to a fresh one-object context. -/
theorem C10_state_witness :
    (⟨1, 48000000, initData 1⟩ : SurviveObjectState).d.state < LS_END :=
  C10_state_always_below_LS_END [(1, 48000000)] [] ⟨1, 48000000, initData 1⟩ (by decide)

/-! ### Claim C5: bounds on emitted sync lightproc records -/

/-- The property every emitted record with a negative sensor id (i.e. every
sync record) satisfies: the id is `-1` or `-2` and the aggregated longest
length lies in `[1500, 7500]`. -/
def SyncRecordOK (c : LightprocCall) : Prop :=
  c.sensor_id < 0 →
    (c.sensor_id = -1 ∨ c.sensor_id = -2) ∧ 1500 ≤ c.length ∧ c.length ≤ 7500

theorem ProcessStateChange_out (ob fl : Bool) (ct : Nat)
    (d : Disambiguator_data_t) (le : LightcapElement) (ns : Nat) (h : Inv d) :
    ∀ c ∈ (ProcessStateChange ob fl ct d le ns).2.2, SyncRecordOK c := by
  obtain ⟨h1, h2, h3, h4⟩ := h
  simp only [ProcessStateChange]
  split
  · split
    case isTrue hcount =>
      intro c hc
      dsimp only at hc
      split at hc
      · rcases List.mem_singleton.mp hc with rfl
        intro _
        refine ⟨?_, ?_, ?_⟩
        · dsimp only
          split_ifs <;> simp
        · dsimp only
          exact (h4 hcount).1
        · dsimp only
          exact (h4 hcount).2
      · simp at hc
    case isFalse hcount =>
      intro c hc
      dsimp only at hc
      simp at hc
  · intro c hc
    dsimp only at hc
    split at hc
    · rw [List.mem_filterMap] at hc
      obtain ⟨p, _, hfp⟩ := hc
      try dsimp only at hfp
      split_ifs at hfp <;>
        first
          | (rcases Option.some.inj hfp with rfl
             intro hneg
             exact absurd hneg (by try dsimp only; omega))
          | exact absurd hfp (by simp)
    · simp at hc

theorem PropagateState_snd (ob fl : Bool) (ct : Nat)
    (d : Disambiguator_data_t) (le : LightcapElement) :
    (PropagateState ob fl ct d le).2.2 = [] ∨
    ∃ ns, (PropagateState ob fl ct d le).2.2 = (ProcessStateChange ob fl ct d le ns).2.2 := by
  simp only [PropagateState]
  repeat' split
  all_goals first
    | exact Or.inl rfl
    | exact Or.inr ⟨_, rfl⟩

theorem PropagateState_out (ob fl : Bool) (ct : Nat)
    (d : Disambiguator_data_t) (le : LightcapElement) (h : Inv d) :
    ∀ c ∈ (PropagateState ob fl ct d le).2.2, SyncRecordOK c := by
  rcases PropagateState_snd ob fl ct d le with he | ⟨ns, he⟩
  · rw [he]; intro c hc; simp at hc
  · rw [he]; exact ProcessStateChange_out ob fl ct d le ns h

theorem DisambiguatorStateBased_out (ob fl : Bool) (ct tbhz : Nat)
    (d : Disambiguator_data_t) (le : LightcapElement) (h : Inv d) :
    ∀ c ∈ (DisambiguatorStateBased ob fl ct tbhz d le).2.2, SyncRecordOK c := by
  by_cases h0 : ct = 0
  · simp only [DisambiguatorStateBased, if_pos h0]
    intro c hc; simp at hc
  by_cases h1 : d.stabalize < 200
  · simp only [DisambiguatorStateBased, if_neg h0, if_pos h1]
    intro c hc; simp at hc
  by_cases h2 : d.state = 0
  · simp only [DisambiguatorStateBased, if_neg h0, if_neg h1, if_pos h2]
    intro c hc
    try dsimp only at hc
    simp at hc
  · simp only [DisambiguatorStateBased, if_neg h0, if_neg h1, if_neg h2]
    by_cases h3 : survive_timecode_difference le.timestamp d.last_timestamp > tbhz
    · rw [if_pos h3]
      by_cases h4 : d.confidence <
          ((survive_timecode_difference le.timestamp d.last_timestamp / tbhz : Nat) * 10 : Int)
      · rw [if_pos h4]
        intro c hc; simp at hc
      · rw [if_neg h4]
        refine PropagateState_out ob fl ct
          { d with confidence := d.confidence -
              ((survive_timecode_difference le.timestamp d.last_timestamp / tbhz : Nat) * 10 : Int) }
          le ⟨h.1, ?_, h.2.2.1, h.2.2.2⟩
        have hconf := h.2.1
        have hf : (0 : Int) ≤
            ((survive_timecode_difference le.timestamp d.last_timestamp / tbhz : Nat) : Int) :=
          Int.natCast_nonneg _
        dsimp only
        omega
    · rw [if_neg h3]
      exact PropagateState_out ob fl ct d le h

theorem ctxStep_out (ctx : SurviveContextState) (ev : Nat × LightcapElement)
    (hinv : CtxInv ctx) (hout : ∀ p ∈ ctx.outputs, SyncRecordOK p.2) :
    ∀ p ∈ (ctxStep ctx ev).outputs, SyncRecordOK p.2 := by
  unfold ctxStep
  cases hq : ctx.objs.get? ev.1 with
  | none => exact hout
  | some o =>
      intro p hp
      dsimp only at hp
      rcases List.mem_append.mp hp with hp | hp
      · exact hout p hp
      · rw [List.mem_map] at hp
        obtain ⟨c, hc, rfl⟩ := hp
        exact DisambiguatorStateBased_out _ _ _ _ _ _ (hinv o (List.get?_mem hq)) c hc

theorem ctxRun_out (evs : List (Nat × LightcapElement)) :
    ∀ ctx, CtxInv ctx → (∀ p ∈ ctx.outputs, SyncRecordOK p.2) →
      ∀ p ∈ (ctxRun ctx evs).outputs, SyncRecordOK p.2 := by
  induction evs with
  | nil => intro ctx _ hout; exact hout
  | cons e t ih =>
      intro ctx hinv hout
      exact ih _ (ctxStep_inv _ _ hinv) (ctxStep_out _ _ hinv hout)

/-- C5 (counterexample): the concrete run `emitStream` emits a sync
lightproc record (sensor id -1) whose aggregated length is 7400, outside
the claimed interval `[2000, 7000]`: a 7400-tick pulse in acode-5 phase 11
still has timing error 1150, below the 1250 acceptance threshold, and so
becomes the aggregate's longest length. -/
theorem C5_sync_length_counterexample :
    (0, (⟨-1, 7, 0, 4421300, 7400, 0⟩ : LightprocCall)) ∈ (ctxRun ctx1 emitStream).outputs ∧
    (⟨-1, 7, 0, 4421300, 7400, 0⟩ : LightprocCall).sensor_id < 0 ∧
    ¬ ((⟨-1, 7, 0, 4421300, 7400, 0⟩ : LightprocCall).length ≤ 7000) := by
  refine ⟨by decide, by decide, by decide⟩

/-- C5 (amended): for every input event stream from a fresh context, every
record passed to `lightproc` with a negative sensor id has sensor id -1 or
-2, and its length lies in `[1500, 7500]` (within 1250 ticks of some acode
timing) -- not in the claimed `[2000, 7000]`. -/
theorem C5_sync_lightproc_bounds (cfg : List (Nat × Nat))
    (evs : List (Nat × LightcapElement)) :
    ∀ p ∈ (ctxRun (initCtx cfg) evs).outputs, p.2.sensor_id < 0 →
      (p.2.sensor_id = -1 ∨ p.2.sensor_id = -2) ∧
      1500 ≤ p.2.length ∧ p.2.length ≤ 7500 := by
  intro p hp
  exact ctxRun_out evs (initCtx cfg) (initCtx_inv cfg)
    (by intro q hq; simp [initCtx] at hq) p hp

/-- C5 (witness): the bounds applied to the 7400-tick record emitted by the
concrete run `emitStream`. -/
theorem C5_sync_lightproc_bounds_witness :
    ((⟨-1, 7, 0, 4421300, 7400, 0⟩ : LightprocCall).sensor_id = -1 ∨
     (⟨-1, 7, 0, 4421300, 7400, 0⟩ : LightprocCall).sensor_id = -2) ∧
    1500 ≤ (⟨-1, 7, 0, 4421300, 7400, 0⟩ : LightprocCall).length ∧
    (⟨-1, 7, 0, 4421300, 7400, 0⟩ : LightprocCall).length ≤ 7500 :=
  C5_sync_lightproc_bounds [(1, 48000000)] emitStream
    (0, ⟨-1, 7, 0, 4421300, 7400, 0⟩) (by decide) (by decide)

/-! ### Claim C4: the 60 Hz mode flag -/

theorem findSome?_prop {α β : Type} (f : α → Option β) (P : β → Prop)
    (hf : ∀ a b, f a = some b → P b) :
    ∀ (l : List α) (b : β), l.findSome? f = some b → P b := by
  intro l
  induction l with
  | nil => intro b hb; simp [List.findSome?] at hb
  | cons a t ih =>
      intro b hb
      cases hfa : f a with
      | some c =>
          simp only [List.findSome?_cons, hfa] at hb
          exact Option.some.inj hb ▸ hf a c hfa
      | none =>
          simp only [List.findSome?_cons, hfa] at hb
          exact ih b hb

/-- When another object is already locked with positive confidence
(`othersBest = true`), the lock-finder only tests the mode equal to the
current flag, so a successful search returns exactly that mode. -/
theorem find_relative_offset_mode (ob fl : Bool) (d : Disambiguator_data_t)
    (g m : Nat) (is60 : Bool) (hob : ob = true)
    (h : find_relative_offset ob fl d = some (g, m, is60)) : is60 = fl := by
  simp only [find_relative_offset] at h
  suffices hP : ((g, m, is60) : Nat × Nat × Bool).2.2 = fl by exact hP
  refine findSome?_prop _ (fun r : Nat × Nat × Bool => r.2.2 = fl) ?_ _ _ h
  intro a b hab
  try dsimp only at hab
  split at hab
  · refine findSome?_prop _ (fun r : Nat × Nat × Bool => r.2.2 = fl) ?_ _ _ hab
    intro t r htr
    try dsimp only at htr
    split at htr
    · exact absurd htr (by simp)
    · rename_i hskip
      split at htr
      · have h60 : (decide (t = 1) : Bool) = fl := by
          by_contra hne
          exact hskip ⟨hob, hne⟩
        obtain rfl := Option.some.inj htr
        exact h60
      · exact absurd htr (by simp)
  · exact absurd hab (by simp)

theorem SetState_flag (ob fl : Bool) (ct : Nat) (d : Disambiguator_data_t) (s : Nat)
    (hob : ob = true) (hfl : fl = true) : (SetState ob fl ct d s).2 = true := by
  subst hob hfl
  simp [SetState]

theorem EndSync_flag (ob fl : Bool) (d : Disambiguator_data_t)
    (hob : ob = true) (hfl : fl = true) : (EndSync ob fl d).2.1 = true := by
  cases hq : find_relative_offset ob fl (AddSyncHistory d (get_last_sync d)) with
  | none =>
      simp only [EndSync, hq]
      exact hfl
  | some t =>
      obtain ⟨g, m, is60⟩ := t
      simp only [EndSync, hq]
      exact (find_relative_offset_mode ob fl _ g m is60 hob hq).trans hfl

theorem RunACodeCapture_flag (ob fl : Bool) (ct a : Nat)
    (d : Disambiguator_data_t) (le : LightcapElement)
    (hob : ob = true) (hfl : fl = true) :
    (RunACodeCapture ob fl ct a d le).2 = true := by
  simp only [RunACodeCapture]
  split_ifs <;> first
    | exact hfl
    | exact SetState_flag ob fl ct d 0 hob hfl

theorem ProcessStateChange_flag (ob fl : Bool) (ct : Nat)
    (d : Disambiguator_data_t) (le : LightcapElement) (ns : Nat)
    (hob : ob = true) (hfl : fl = true) :
    (ProcessStateChange ob fl ct d le ns).2.1 = true := by
  simp only [ProcessStateChange]
  split
  · split
    · try dsimp only
      exact SetState_flag _ _ _ _ _ hob hfl
    · try dsimp only
      exact SetState_flag _ _ _ _ _ hob hfl
  · try dsimp only
    exact SetState_flag _ _ _ _ _ hob hfl

theorem PropagateState_flag (ob fl : Bool) (ct : Nat)
    (d : Disambiguator_data_t) (le : LightcapElement)
    (hob : ob = true) (hfl : fl = true) :
    (PropagateState ob fl ct d le).2.1 = true := by
  simp only [PropagateState]
  repeat' split
  all_goals try dsimp only
  all_goals first
    | exact hfl
    | exact ProcessStateChange_flag _ _ _ _ _ _ hob hfl
    | exact RunACodeCapture_flag _ _ _ _ _ _ hob hfl
    | exact RunACodeCapture_flag _ _ _ _ _ _ hob (ProcessStateChange_flag _ _ _ _ _ _ hob hfl)

theorem AttemptFindState_flag (ob fl : Bool) (d : Disambiguator_data_t)
    (le : LightcapElement) (hob : ob = true) (hfl : fl = true) :
    (AttemptFindState ob fl d le).2.1 = true := by
  simp only [AttemptFindState]
  repeat' split
  all_goals first
    | exact hfl
    | exact EndSync_flag ob fl d hob hfl

theorem DisambiguatorStateBased_flag (ob fl : Bool) (ct tbhz : Nat)
    (d : Disambiguator_data_t) (le : LightcapElement)
    (hob : ob = true) (hfl : fl = true) :
    (DisambiguatorStateBased ob fl ct tbhz d le).2.1 = true := by
  by_cases h0 : ct = 0
  · simp only [DisambiguatorStateBased, if_pos h0]
    exact hfl
  by_cases h1 : d.stabalize < 200
  · simp only [DisambiguatorStateBased, if_neg h0, if_pos h1]
    exact hfl
  by_cases h2 : d.state = 0
  · simp only [DisambiguatorStateBased, if_neg h0, if_neg h1, if_pos h2]
    have hA := AttemptFindState_flag ob fl d le hob hfl
    by_cases h3 : (AttemptFindState ob fl d le).2.2 ≠ 0
    · rw [if_pos h3]
      try dsimp only
      exact SetState_flag _ _ _ _ _ hob hA
    · rw [if_neg h3]
      try dsimp only
      exact hA
  · simp only [DisambiguatorStateBased, if_neg h0, if_neg h1, if_neg h2]
    by_cases h3 : survive_timecode_difference le.timestamp d.last_timestamp > tbhz
    · rw [if_pos h3]
      by_cases h4 : d.confidence <
          ((survive_timecode_difference le.timestamp d.last_timestamp / tbhz : Nat) * 10 : Int)
      · rw [if_pos h4]
        try dsimp only
        exact SetState_flag _ _ _ _ _ hob hfl
      · rw [if_neg h4]
        try dsimp only
        exact PropagateState_flag _ _ _ _ _ hob hfl
    · rw [if_neg h3]
      try dsimp only
      exact PropagateState_flag _ _ _ _ _ hob hfl

/-- C4 (amended): over any sequence of events, `single_60hz_mode` can go
from `true` to `false` at a step only when no object OTHER than the one
being processed is locked with strictly positive confidence
(`get_best_latest_state` is false over them) -- the processed object going
`UNKNOWN`, or its fresh lock choosing full mode, then lowers the flag even
while other objects remain locked with confidence at most 0.  The claimed
reset condition "all objects simultaneously losing lock" is therefore too
strong: no second flip can happen only while some OTHER object holds lock
with positive confidence. -/
theorem C4_flag_lowered_only_without_confident_peer (ctx : SurviveContextState)
    (ev : Nat × LightcapElement)
    (hpre : ctx.single_60hz_mode = true)
    (hpost : (ctxStep ctx ev).single_60hz_mode = false) :
    get_best_latest_state (ctx.objs.eraseIdx ev.1) = false := by
  by_contra hob
  rw [Bool.not_eq_false] at hob
  revert hpost
  unfold ctxStep
  cases hq : ctx.objs.get? ev.1 with
  | none =>
      intro hpost
      rw [hpre] at hpost
      exact absurd hpost (by simp)
  | some o =>
      intro hpost
      dsimp only at hpost
      rw [DisambiguatorStateBased_flag _ _ _ _ _ _ hob hpre] at hpost
      exact absurd hpost (by simp)

/-- A context whose flag is raised, holding one locked object with
confidence 0. -/
def c4wCtx : SurviveContextState :=
  ⟨true, [⟨1, 48000000, { initData 1 with state := 5, stabalize := 200 }⟩], []⟩

/-- C4 (witness): the characterization applied to a one-object context
whose object times out (penalty 20 against confidence 0), lowering the
flag. -/
theorem C4_flag_lowered_witness :
    get_best_latest_state (c4wCtx.objs.eraseIdx 0) = false :=
  C4_flag_lowered_only_without_confident_peer c4wCtx (0, ⟨0, 50, 100000000⟩)
    (by decide) (by decide)

/-- One step of the scan used in the C4 counterexample.  The accumulator is
`(previous flag, number of false-to-true flips so far, whether a snapshot
with all objects UNKNOWN has occurred since the last flip, whether a second
flip has occurred with NO all-objects-UNKNOWN snapshot since the first)`. -/
def c4scanStep (acc : Bool × Nat × Bool × Bool) (c : SurviveContextState) :
    Bool × Nat × Bool × Bool :=
  let prev := acc.1
  let flips := acc.2.1
  let sawFullReset := acc.2.2.1
  let witnessed := acc.2.2.2
  let f := c.single_60hz_mode
  let allUnknown := c.objs.all (fun o => decide (o.d.state = 0))
  let isFlip := !prev && f
  let flips2 := if isFlip then flips + 1 else flips
  let witnessed2 := witnessed || (isFlip && decide (flips2 = 2) && !sawFullReset)
  let sawReset2 := if isFlip then false else (sawFullReset || (decide (1 ≤ flips2) && allUnknown))
  (f, flips2, sawReset2, witnessed2)

/-- C4 (counterexample): scanning the trace of the concrete two-object run
`flagStream` shows the flag flips from false to true exactly twice, with no
snapshot between the flips in which all objects are UNKNOWN: object B locks
in 60 Hz mode (flip one), object A locks with confidence 0, B times out --
clearing the flag because A's confidence is 0, although A is still locked
-- and B's second lock flips the flag again.  The claim that a second flip
requires all objects to have simultaneously lost lock is false. -/
theorem C4_single_60hz_mode_counterexample :
    (ctxTrace ctx2 flagStream).foldl c4scanStep (false, 0, false, false) =
      (true, 2, false, true) := by
  decide

end Disambiguator

